import Mathlib

/-!
Shallow embedding of the DAG-definition scripts of the
`data-factory-airflow-dags` repository.

The repository instantiates workflow-orchestration operator objects with
static keyword arguments and wires upstream/downstream links between them.
We model a DAG as the list of instantiated tasks (each task keeping the
static parameters relevant to the verified claims: operator class, pool,
priority weight, retries, retry delay, execution timeout, parent task,
sensed path, free-disk threshold, SPM function name and trigger dag ids)
together with the list of `set_upstream` links, recorded as
(upstream task id, downstream task id) pairs in source order.
Documentation strings, Jinja command templates, `params` dictionaries and
the `output_folder_callable` lambdas carry no behavior relevant to the
claims and are not modelled; the task callables themselves are modelled
separately as pure functions that record the external calls they make.
-/

namespace DataFactory

inductive OpType where
  | FreeSpaceSensor : OpType
  | BashOperator : OpType
  | PreparePipelineOperator : OpType
  | PythonPipelineOperator : OpType
  | SpmPipelineOperator : OpType
  | TriggerDagRunOperator : OpType
  | BashPipelineOperator : OpType
deriving DecidableEq

structure Task where
  task_id : String
  op : OpType
  pool : Option String := none
  priority_weight : Option Nat := none
  retries : Option Nat := none
  retry_delay_seconds : Option Nat := none
  execution_timeout_seconds : Option Nat := none
  parent_task : Option String := none
  path : Option String := none
  free_disk_threshold : Option String := none
  spm_function : Option String := none
  on_skip_trigger_dag_id : Option String := none
  on_failure_trigger_dag_id : Option String := none
  trigger_dag_id : Option String := none
deriving DecidableEq

structure DagModel where
  dag_id : String
  tasks : List Task
  edges : List (String × String)
deriving DecidableEq

def DagModel.taskIds (d : DagModel) : List String :=
  d.tasks.map Task.task_id

def findTask (d : DagModel) (i : String) : Option Task :=
  d.tasks.find? (fun t => t.task_id == i)

/-- A record of one call to an external (non-framework) library function:
the function name and the positional arguments it receives. -/
structure ExtCall where
  fn : String
  args : List String
deriving DecidableEq

end DataFactory

namespace DataFactory.MriPreProcessDicom

/-- The configuration values read by `mri_pre_process_dicom.py` from the
`mri` section of the process-wide configuration store, kept as raw
strings (the module applies `float` to the free-space value before
handing it to the sensor; that conversion happens identically wherever
the value is used and is not modelled). -/
structure Config where
  pipelines_path : String
  protocols_file : String
  min_free_space_local_folder : String
  dicom_local_folder : String
  dicom_to_nifti_local_folder : String
  dicom_to_nifti_server_folder : String
  neuro_morphometric_atlas_local_folder : String
  neuro_morphometric_atlas_server_folder : String
  mpm_maps_local_folder : String
  mpm_maps_server_folder : String
deriving DecidableEq

/-- `extract_dicom_info_fn` of `mri_pre_process_dicom.py`: calls
`dicom_import.visit_info(folder)`, then `dicom_import.dicom2db(folder)`,
and returns the dictionary binding `participant_id` and `scan_date` to
the pair returned by `visit_info`. The external module is passed in as
the function `visit_info`; the first component of the result records the
external calls made, in order. -/
def extract_dicom_info_fn (visit_info : String → String × String)
    (folder _session_id : String) : List ExtCall × List (String × String) :=
  let pid_sd := visit_info folder
  ([{ fn := "visit_info", args := [folder] },
    { fn := "dicom2db", args := [folder] }],
   [("participant_id", pid_sd.1), ("scan_date", pid_sd.2)])

/-- `extract_nifti_info_fn` of `mri_pre_process_dicom.py`: calls
`nifti_import.nifti2db(folder, participant_id, scan_date)` and returns
the string "ok". -/
def extract_nifti_info_fn (folder _session_id participant_id scan_date : String) :
    List ExtCall × String :=
  ([{ fn := "nifti2db", args := [folder, participant_id, scan_date] }], "ok")

/-- `dicom_to_nifti_arguments_fn` of `mri_pre_process_dicom.py`.
`os.path.abspath` is external and passed in as `abspath`. -/
def dicom_to_nifti_arguments_fn (cfg : Config) (abspath : String → String)
    (folder session_id _participant_id _scan_date : String) : List String :=
  let parent_data_folder := abspath (folder ++ "/..")
  [parent_data_folder,
   session_id,
   cfg.dicom_to_nifti_local_folder,
   cfg.dicom_to_nifti_server_folder,
   cfg.protocols_file]

/-- `neuro_morphometric_atlas_arguments_fn` of `mri_pre_process_dicom.py`. -/
def neuro_morphometric_atlas_arguments_fn (cfg : Config) (abspath : String → String)
    (folder session_id _participant_id _scan_date : String) : List String :=
  let parent_data_folder := abspath (folder ++ "/..")
  let table_format := "csv"
  [session_id,
   parent_data_folder,
   cfg.neuro_morphometric_atlas_local_folder,
   cfg.neuro_morphometric_atlas_server_folder,
   cfg.protocols_file,
   table_format]

/-- `mpm_maps_arguments_fn` of `mri_pre_process_dicom.py`. -/
def mpm_maps_arguments_fn (cfg : Config) (abspath : String → String)
    (folder session_id _participant_id _scan_date : String) : List String :=
  let parent_data_folder := abspath (folder ++ "/..")
  let pipeline_params_config_file := "Preproc_mpm_maps_pipeline_config.txt"
  [parent_data_folder,
   session_id,
   cfg.mpm_maps_local_folder,
   cfg.protocols_file,
   pipeline_params_config_file,
   cfg.mpm_maps_server_folder]

/-- The hard-coded DAG of `mri_pre_process_dicom.py`: the eleven operator
instantiations and the ten `set_upstream` links, in source order, with
their static keyword arguments. -/
def dag (cfg : Config) : DagModel :=
  { dag_id := "mri_pre_process_dicom"
  , tasks :=
      [ { task_id := "check_free_space", op := .FreeSpaceSensor
        , path := some cfg.dicom_local_folder
        , free_disk_threshold := some cfg.min_free_space_local_folder
        , retry_delay_seconds := some 3600
        , retries := some (24 * 7)
        , pool := some "remote_file_copy" }
      , { task_id := "copy_dicom_to_local", op := .BashOperator
        , pool := some "remote_file_copy"
        , priority_weight := some 10
        , execution_timeout_seconds := some 10800 }
      , { task_id := "prepare_pipeline", op := .PreparePipelineOperator
        , priority_weight := some 12
        , execution_timeout_seconds := some 600 }
      , { task_id := "extract_dicom_info", op := .PythonPipelineOperator
        , parent_task := some "prepare_pipeline"
        , priority_weight := some 15
        , execution_timeout_seconds := some 21600 }
      , { task_id := "dicom_to_nifti_pipeline", op := .SpmPipelineOperator
        , spm_function := some "DCM2NII_LREN"
        , pool := some "image_preprocessing"
        , parent_task := some "prepare_pipeline"
        , priority_weight := some 20
        , execution_timeout_seconds := some 86400 }
      , { task_id := "cleanup_local_dicom", op := .BashOperator
        , priority_weight := some 25
        , execution_timeout_seconds := some 3600 }
      , { task_id := "extract_nifti_info", op := .PythonPipelineOperator
        , parent_task := some "dicom_to_nifti_pipeline"
        , priority_weight := some 21
        , execution_timeout_seconds := some 10800 }
      , { task_id := "mpm_maps_pipeline", op := .SpmPipelineOperator
        , spm_function := some "Preproc_mpm_maps"
        , priority_weight := some 30
        , execution_timeout_seconds := some 10800
        , pool := some "image_preprocessing"
        , parent_task := some "dicom_to_nifti_pipeline" }
      , { task_id := "extract_nifti_mpm_info", op := .PythonPipelineOperator
        , parent_task := some "mpm_maps_pipeline"
        , priority_weight := some 35
        , execution_timeout_seconds := some 10800 }
      , { task_id := "neuro_morphometric_atlas_pipeline", op := .SpmPipelineOperator
        , spm_function := some "NeuroMorphometric_pipeline"
        , pool := some "image_preprocessing"
        , parent_task := some "mpm_maps_pipeline"
        , priority_weight := some 40
        , execution_timeout_seconds := some 86400 }
      , { task_id := "extract_nifti_atlas_info", op := .PythonPipelineOperator
        , parent_task := some "neuro_morphometric_atlas_pipeline"
        , priority_weight := some 45
        , execution_timeout_seconds := some 10800 } ]
  , edges :=
      [ ("check_free_space", "copy_dicom_to_local")
      , ("copy_dicom_to_local", "prepare_pipeline")
      , ("prepare_pipeline", "extract_dicom_info")
      , ("prepare_pipeline", "dicom_to_nifti_pipeline")
      , ("dicom_to_nifti_pipeline", "cleanup_local_dicom")
      , ("dicom_to_nifti_pipeline", "extract_nifti_info")
      , ("dicom_to_nifti_pipeline", "mpm_maps_pipeline")
      , ("mpm_maps_pipeline", "extract_nifti_mpm_info")
      , ("mpm_maps_pipeline", "neuro_morphometric_atlas_pipeline")
      , ("neuro_morphometric_atlas_pipeline", "extract_nifti_atlas_info") ] }

end DataFactory.MriPreProcessDicom

namespace DataFactory.MriPipelines

open DataFactory

/-- The parameterized DAG builder `pre_process_dicom_dag` of
`mri_pipelines/pre_process_dicom.py`, with its parameters in source
order (the Python defaults are recorded separately in the theorems that
instantiate them). The body mirrors the Python control flow: tasks and
`set_upstream` links are accumulated in source order while the
`upstream_id` variable is threaded through the optional blocks exactly
as in the source. -/
def pre_process_dicom_dag
    (dataset : String) (_email_errors_to : String) (_max_active_runs : Nat)
    (_misc_library_path : String)
    (min_free_space_local_folder : String)
    (dicom_local_folder : String)
    (copy_dicom_to_local : Bool)
    (dicom_organizer : Bool)
    (dicom_organizer_spm_function : String)
    (_dicom_organizer_pipeline_path : String)
    (_dicom_organizer_local_folder : String)
    (_dicom_organizer_data_structure : String)
    (dicom_to_nifti_spm_function : String)
    (_dicom_to_nifti_pipeline_path : String)
    (_dicom_to_nifti_local_folder : String)
    (_dicom_to_nifti_server_folder : String)
    (mpm_maps : Bool)
    (mpm_maps_spm_function : String)
    (_mpm_maps_pipeline_path : String)
    (_mpm_maps_local_folder : String)
    (_mpm_maps_server_folder : String)
    (neuro_morphometric_atlas : Bool)
    (neuro_morphometric_atlas_spm_function : String)
    (_neuro_morphometric_atlas_pipeline_path : String)
    (_neuro_morphometric_atlas_local_folder : String)
    (_neuro_morphometric_atlas_server_folder : String) : DagModel := Id.run do
  let dagName := (dataset.toLower.replace " " "_") ++ "_mri_pre_process_dicom"
  let mut tasks : List Task :=
    [ { task_id := "check_free_space", op := .FreeSpaceSensor
      , path := some dicom_local_folder
      , free_disk_threshold := some min_free_space_local_folder
      , retry_delay_seconds := some 3600
      , retries := some (24 * 7)
      , pool := some "remote_file_copy" } ]
  let mut edges : List (String × String) := []
  let mut upstream_id := "check_free_space"
  if copy_dicom_to_local then
    tasks := tasks ++
      [ { task_id := "copy_dicom_to_local", op := .BashOperator
        , pool := some "remote_file_copy"
        , priority_weight := some 10
        , execution_timeout_seconds := some 10800 } ]
    edges := edges ++ [(upstream_id, "copy_dicom_to_local")]
    upstream_id := "copy_dicom_to_local"
  tasks := tasks ++
    [ { task_id := "prepare_pipeline", op := .PreparePipelineOperator
      , priority_weight := some 12
      , execution_timeout_seconds := some 600 } ]
  edges := edges ++ [(upstream_id, "prepare_pipeline")]
  upstream_id := "prepare_pipeline"
  if dicom_organizer then
    tasks := tasks ++
      [ { task_id := "dicom_organizer_pipeline", op := .SpmPipelineOperator
        , spm_function := some dicom_organizer_spm_function
        , pool := some "io_intensive"
        , parent_task := some upstream_id
        , priority_weight := some 20
        , execution_timeout_seconds := some 86400
        , on_skip_trigger_dag_id := some "mri_notify_skipped_processing"
        , on_failure_trigger_dag_id := some "mri_notify_failed_processing" } ]
    edges := edges ++ [(upstream_id, "dicom_organizer_pipeline")]
    upstream_id := "dicom_organizer_pipeline"
  tasks := tasks ++
    [ { task_id := "extract_dicom_info", op := .PythonPipelineOperator
      , parent_task := some upstream_id
      , pool := some "io_intensive"
      , priority_weight := some 15
      , execution_timeout_seconds := some 21600 } ]
  edges := edges ++ [(upstream_id, "extract_dicom_info")]
  upstream_id := "extract_dicom_info"
  tasks := tasks ++
    [ { task_id := "dicom_to_nifti_pipeline", op := .SpmPipelineOperator
      , spm_function := some dicom_to_nifti_spm_function
      , pool := some "io_intensive"
      , parent_task := some upstream_id
      , priority_weight := some 20
      , execution_timeout_seconds := some 86400
      , on_skip_trigger_dag_id := some "mri_notify_skipped_processing"
      , on_failure_trigger_dag_id := some "mri_notify_failed_processing" } ]
  edges := edges ++ [(upstream_id, "dicom_to_nifti_pipeline")]
  upstream_id := "dicom_to_nifti_pipeline"
  tasks := tasks ++
    [ { task_id := "cleanup_local_dicom", op := .BashOperator
      , priority_weight := some 25
      , execution_timeout_seconds := some 3600 } ]
  edges := edges ++ [(upstream_id, "cleanup_local_dicom")]
  tasks := tasks ++
    [ { task_id := "extract_nifti_info", op := .PythonPipelineOperator
      , parent_task := some upstream_id
      , pool := some "io_intensive"
      , priority_weight := some 21
      , execution_timeout_seconds := some 10800 } ]
  edges := edges ++ [("dicom_to_nifti_pipeline", "extract_nifti_info")]
  tasks := tasks ++
    [ { task_id := "notify_success", op := .TriggerDagRunOperator
      , trigger_dag_id := some "mri_notify_successful_processing"
      , priority_weight := some 50 } ]
  edges := edges ++ [("extract_nifti_info", "notify_success")]
  if mpm_maps then
    tasks := tasks ++
      [ { task_id := "mpm_maps_pipeline", op := .SpmPipelineOperator
        , spm_function := some mpm_maps_spm_function
        , priority_weight := some 30
        , execution_timeout_seconds := some 86400
        , pool := some "image_preprocessing"
        , parent_task := some upstream_id
        , on_skip_trigger_dag_id := some "mri_notify_skipped_processing"
        , on_failure_trigger_dag_id := some "mri_notify_failed_processing" } ]
    edges := edges ++ [(upstream_id, "mpm_maps_pipeline")]
    upstream_id := "mpm_maps_pipeline"
    tasks := tasks ++
      [ { task_id := "extract_nifti_mpm_info", op := .PythonPipelineOperator
        , parent_task := some upstream_id
        , pool := some "io_intensive"
        , priority_weight := some 35
        , execution_timeout_seconds := some 10800 } ]
    edges := edges ++ [(upstream_id, "extract_nifti_mpm_info")]
    edges := edges ++ [("extract_nifti_mpm_info", "notify_success")]
  if neuro_morphometric_atlas then
    tasks := tasks ++
      [ { task_id := "neuro_morphometric_atlas_pipeline", op := .SpmPipelineOperator
        , spm_function := some neuro_morphometric_atlas_spm_function
        , pool := some "image_preprocessing"
        , parent_task := some upstream_id
        , priority_weight := some 40
        , execution_timeout_seconds := some 86400
        , on_skip_trigger_dag_id := some "mri_notify_skipped_processing"
        , on_failure_trigger_dag_id := some "mri_notify_failed_processing" } ]
    edges := edges ++ [(upstream_id, "neuro_morphometric_atlas_pipeline")]
    tasks := tasks ++
      [ { task_id := "extract_nifti_atlas_info", op := .PythonPipelineOperator
        , parent_task := some "neuro_morphometric_atlas_pipeline"
        , pool := some "io_intensive"
        , priority_weight := some 45
        , execution_timeout_seconds := some 10800 } ]
    edges := edges ++ [("neuro_morphometric_atlas_pipeline", "extract_nifti_atlas_info")]
    edges := edges ++ [("extract_nifti_atlas_info", "notify_success")]
  return { dag_id := dagName, tasks := tasks, edges := edges }

end DataFactory.MriPipelines

namespace DataFactory.MriPipelines

/-- A Python runtime error, as raised by a task callable. -/
inductive PyError where
  | nameError : String → PyError
deriving DecidableEq

/-- Every name visible to the nested argument-builder functions of
`mri_pipelines/pre_process_dicom.py` when they resolve a free variable:
their own parameters and locals, the parameters and locals of the
enclosing `pre_process_dicom_dag` (including the nested function names),
and the module-level bindings created by the import statements and the
single module-level `def`. Transcribed from the source; `protocols_file`
is bound by none of these scopes (and is no Python builtin). -/
def pipelinesModuleScopeNames : List String :=
  [ -- locals and parameters of the nested functions
    "folder", "session_id", "participant_id", "scan_date", "kwargs",
    "parent_data_folder", "table_format", "pipeline_params_config_file",
    -- parameters of pre_process_dicom_dag
    "dataset", "email_errors_to", "max_active_runs", "misc_library_path",
    "min_free_space_local_folder", "dicom_local_folder",
    "copy_dicom_to_local", "dicom_organizer", "dicom_organizer_spm_function",
    "dicom_organizer_pipeline_path", "dicom_organizer_local_folder",
    "dicom_organizer_data_structure", "dicom_to_nifti_spm_function",
    "dicom_to_nifti_pipeline_path", "dicom_to_nifti_local_folder",
    "dicom_to_nifti_server_folder", "mpm_maps", "mpm_maps_spm_function",
    "mpm_maps_pipeline_path", "mpm_maps_local_folder", "mpm_maps_server_folder",
    "neuro_morphometric_atlas", "neuro_morphometric_atlas_spm_function",
    "neuro_morphometric_atlas_pipeline_path",
    "neuro_morphometric_atlas_local_folder",
    "neuro_morphometric_atlas_server_folder",
    -- locals of pre_process_dicom_dag, including the nested function names
    "extract_dicom_info_fn", "dicom_organizer_arguments_fn",
    "dicom_to_nifti_arguments_fn", "neuro_morphometric_atlas_arguments_fn",
    "mpm_maps_arguments_fn", "extract_nifti_info_fn",
    "DAG_NAME", "default_args", "dag", "check_free_space",
    "upstream", "upstream_id", "copy_dicom_to_local_cmd",
    "prepare_pipeline", "dicom_organizer_pipeline", "extract_dicom_info",
    "dicom_to_nifti_pipeline", "cleanup_local_dicom_cmd", "cleanup_local_dicom",
    "extract_nifti_info", "notify_success", "mpm_maps_pipeline",
    "extract_nifti_mpm_info", "neuro_morphometric_atlas_pipeline",
    "extract_nifti_atlas_info",
    -- module-level bindings of mri_pipelines/pre_process_dicom.py
    "logging", "os", "datetime", "timedelta", "dedent", "DAG",
    "BashOperator", "TriggerDagRunOperator", "SpmPipelineOperator",
    "FreeSpaceSensor", "PreparePipelineOperator", "PythonPipelineOperator",
    "pipeline_trigger", "configuration", "dicom_import", "nifti_import",
    "pre_process_dicom_dag" ]

/-- Resolution of a free variable inside the nested functions of
`mri_pipelines/pre_process_dicom.py`: Python searches the enclosing
scopes and the module globals and raises `NameError` when the name is
bound in none of them; a found name resolves symbolically to itself
(its value is irrelevant to the claims). -/
def lookupScopedName (n : String) : Except PyError String :=
  if n ∈ pipelinesModuleScopeNames then Except.ok n
  else Except.error (PyError.nameError n)

/-- `dicom_organizer_arguments_fn` of `mri_pipelines/pre_process_dicom.py`.
Names bound as parameters of the enclosing builder are Lean parameters
here; `protocols_file`, which is bound nowhere, goes through scope
resolution. -/
def dicom_organizer_arguments_fn (abspath : String → String)
    (dicom_organizer_local_folder dicom_organizer_data_structure : String)
    (folder session_id : String) : Except PyError (List String) := do
  let parent_data_folder := abspath (folder ++ "/..")
  let protocols_file ← lookupScopedName "protocols_file"
  Except.ok [parent_data_folder,
             dicom_organizer_local_folder,
             session_id,
             dicom_organizer_data_structure,
             protocols_file]

/-- `dicom_to_nifti_arguments_fn` of `mri_pipelines/pre_process_dicom.py`. -/
def dicom_to_nifti_arguments_fn (abspath : String → String)
    (dicom_to_nifti_local_folder dicom_to_nifti_server_folder : String)
    (folder session_id _participant_id _scan_date : String) :
    Except PyError (List String) := do
  let parent_data_folder := abspath (folder ++ "/..")
  let protocols_file ← lookupScopedName "protocols_file"
  Except.ok [parent_data_folder,
             session_id,
             dicom_to_nifti_local_folder,
             dicom_to_nifti_server_folder,
             protocols_file]

/-- `neuro_morphometric_atlas_arguments_fn` of
`mri_pipelines/pre_process_dicom.py`. -/
def neuro_morphometric_atlas_arguments_fn (abspath : String → String)
    (neuro_morphometric_atlas_local_folder neuro_morphometric_atlas_server_folder : String)
    (folder session_id _participant_id _scan_date : String) :
    Except PyError (List String) := do
  let parent_data_folder := abspath (folder ++ "/..")
  let table_format := "csv"
  let protocols_file ← lookupScopedName "protocols_file"
  Except.ok [session_id,
             parent_data_folder,
             neuro_morphometric_atlas_local_folder,
             neuro_morphometric_atlas_server_folder,
             protocols_file,
             table_format]

/-- `mpm_maps_arguments_fn` of `mri_pipelines/pre_process_dicom.py`
(its `pipeline_params_config_file` parameter taken at its default). -/
def mpm_maps_arguments_fn (abspath : String → String)
    (mpm_maps_local_folder mpm_maps_server_folder : String)
    (folder session_id _participant_id _scan_date : String) :
    Except PyError (List String) := do
  let pipeline_params_config_file := "Preproc_mpm_maps_pipeline_config.txt"
  let parent_data_folder := abspath (folder ++ "/..")
  let protocols_file ← lookupScopedName "protocols_file"
  Except.ok [parent_data_folder,
             session_id,
             mpm_maps_local_folder,
             protocols_file,
             pipeline_params_config_file,
             mpm_maps_server_folder]

end DataFactory.MriPipelines

namespace DataFactory.PreprocessingSteps

open DataFactory

/-- The step handle returned by the step builders. Its definition lives
in the `common_steps` module outside this repository; the record shape
(`task`, `task_id`, `priority_weight`, constructed positionally in that
order) is transcribed from its construction and uses in
`preprocessing_steps/copy_to_local.py`. The `task` component keeps the
id of the held operator, or `none` when the handle carries no task. -/
structure Step where
  task : Option String
  task_id : String
  priority_weight : Nat
deriving DecidableEq

/-- `copy_to_local_step` of `preprocessing_steps/copy_to_local.py`:
instantiates the `copy_to_local` BashPipelineOperator, links it below
the task of the upstream step when that task is present, and returns the new
step handle. The result is the operator, the `set_upstream` links made,
and the returned `Step`. -/
def copy_to_local_step (upstream_step : Step)
    (_min_free_space : String) (_output_folder : String)
    (_dataset_config : List String) :
    Task × List (String × String) × Step :=
  let copy_to_local : Task :=
    { task_id := "copy_to_local", op := .BashPipelineOperator
    , pool := some "remote_file_copy"
    , parent_task := some upstream_step.task_id
    , priority_weight := some upstream_step.priority_weight
    , execution_timeout_seconds := some 10800
    , on_failure_trigger_dag_id := some "mri_notify_failed_processing" }
  let links : List (String × String) :=
    match upstream_step.task with
    | some t => [(t, "copy_to_local")]
    | none => []
  (copy_to_local, links,
   { task := some "copy_to_local", task_id := "copy_to_local"
   , priority_weight := upstream_step.priority_weight + 10 })

end DataFactory.PreprocessingSteps

namespace DataFactory

open DataFactory.MriPreProcessDicom DataFactory.MriPipelines DataFactory.PreprocessingSteps

/-- The arguments of the parameterized builder other than the four
optional feature flags, bundled for convenient quantification. -/
structure BuilderArgs where
  dataset : String
  email_errors_to : String
  max_active_runs : Nat
  misc_library_path : String
  min_free_space_local_folder : String
  dicom_local_folder : String
  dicom_organizer_spm_function : String
  dicom_organizer_pipeline_path : String
  dicom_organizer_local_folder : String
  dicom_organizer_data_structure : String
  dicom_to_nifti_spm_function : String
  dicom_to_nifti_pipeline_path : String
  dicom_to_nifti_local_folder : String
  dicom_to_nifti_server_folder : String
  mpm_maps_spm_function : String
  mpm_maps_pipeline_path : String
  mpm_maps_local_folder : String
  mpm_maps_server_folder : String
  neuro_morphometric_atlas_spm_function : String
  neuro_morphometric_atlas_pipeline_path : String
  neuro_morphometric_atlas_local_folder : String
  neuro_morphometric_atlas_server_folder : String

/-- `pre_process_dicom_dag` applied to bundled arguments and the four
feature flags, in the parameter order of the Python signature. -/
def mkDag (a : BuilderArgs)
    (copy_dicom_to_local dicom_organizer mpm_maps neuro_morphometric_atlas : Bool) :
    DagModel :=
  MriPipelines.pre_process_dicom_dag
    a.dataset a.email_errors_to a.max_active_runs
    a.misc_library_path a.min_free_space_local_folder a.dicom_local_folder
    copy_dicom_to_local
    dicom_organizer a.dicom_organizer_spm_function a.dicom_organizer_pipeline_path
    a.dicom_organizer_local_folder a.dicom_organizer_data_structure
    a.dicom_to_nifti_spm_function a.dicom_to_nifti_pipeline_path
    a.dicom_to_nifti_local_folder a.dicom_to_nifti_server_folder
    mpm_maps a.mpm_maps_spm_function a.mpm_maps_pipeline_path
    a.mpm_maps_local_folder a.mpm_maps_server_folder
    neuro_morphometric_atlas a.neuro_morphometric_atlas_spm_function
    a.neuro_morphometric_atlas_pipeline_path
    a.neuro_morphometric_atlas_local_folder
    a.neuro_morphometric_atlas_server_folder

/-- The builder arguments a deployment derives from the same
configuration values the hard-coded module reads, with the Python
defaults for every optional non-flag parameter (the SPM function names,
the DICOM organizer data structure) and the pipeline paths derived from
`pipelines_path` as in the hard-coded module. -/
def argsOfConfig (cfg : Config) : BuilderArgs :=
  { dataset := "mri"
  , email_errors_to := "ludovic.claude@chuv.ch"
  , max_active_runs := 1
  , misc_library_path := cfg.pipelines_path ++ "/../Miscellaneous&Others"
  , min_free_space_local_folder := cfg.min_free_space_local_folder
  , dicom_local_folder := cfg.dicom_local_folder
  , dicom_organizer_spm_function := "dicomOrganizer"
  , dicom_organizer_pipeline_path := ""
  , dicom_organizer_local_folder := ""
  , dicom_organizer_data_structure := "PatientID:StudyID:ProtocolName:SeriesNumber"
  , dicom_to_nifti_spm_function := "DCM2NII_LREN"
  , dicom_to_nifti_pipeline_path := cfg.pipelines_path ++ "/Nifti_Conversion_Pipeline"
  , dicom_to_nifti_local_folder := cfg.dicom_to_nifti_local_folder
  , dicom_to_nifti_server_folder := cfg.dicom_to_nifti_server_folder
  , mpm_maps_spm_function := "Preproc_mpm_maps"
  , mpm_maps_pipeline_path := cfg.pipelines_path ++ "/MPMs_Pipeline"
  , mpm_maps_local_folder := cfg.mpm_maps_local_folder
  , mpm_maps_server_folder := cfg.mpm_maps_server_folder
  , neuro_morphometric_atlas_spm_function := "NeuroMorphometric_pipeline"
  , neuro_morphometric_atlas_pipeline_path :=
      cfg.pipelines_path ++ "/NeuroMorphometric_Pipeline/NeuroMorphometric_tbx/label"
  , neuro_morphometric_atlas_local_folder := cfg.neuro_morphometric_atlas_local_folder
  , neuro_morphometric_atlas_server_folder := cfg.neuro_morphometric_atlas_server_folder }

/-- The builder instantiated with the configuration-derived arguments
and the four feature flags, mirroring the default deployment. -/
def buildWith (cfg : Config)
    (copy_dicom_to_local dicom_organizer mpm_maps neuro_morphometric_atlas : Bool) :
    DagModel :=
  mkDag (argsOfConfig cfg) copy_dicom_to_local dicom_organizer mpm_maps neuro_morphometric_atlas

/-- A concrete configuration used to evaluate the DAG definitions on an
explicit input. -/
def cfgEx : Config :=
  { pipelines_path := "/opt/pipelines"
  , protocols_file := "/opt/protocols.txt"
  , min_free_space_local_folder := "0.3"
  , dicom_local_folder := "/data/dicom"
  , dicom_to_nifti_local_folder := "/data/nifti"
  , dicom_to_nifti_server_folder := "/srv/nifti"
  , neuro_morphometric_atlas_local_folder := "/data/atlas"
  , neuro_morphometric_atlas_server_folder := "/srv/atlas"
  , mpm_maps_local_folder := "/data/mpm"
  , mpm_maps_server_folder := "/srv/mpm" }

/-- C4: in both DAG definitions, `check_free_space` is a free-space
sensor on the configured local DICOM folder with the configured
free-space threshold, a retry delay of one hour, 24 * 7 = 168 retries,
and pool `remote_file_copy`. -/
theorem claim4_check_free_space_config (cfg : Config)
    (copy_flag organizer_flag mpm_flag atlas_flag : Bool) :
    findTask (MriPreProcessDicom.dag cfg) "check_free_space" =
      some { task_id := "check_free_space", op := .FreeSpaceSensor
           , path := some cfg.dicom_local_folder
           , free_disk_threshold := some cfg.min_free_space_local_folder
           , retry_delay_seconds := some 3600
           , retries := some (24 * 7)
           , pool := some "remote_file_copy" } ∧
    findTask (buildWith cfg copy_flag organizer_flag mpm_flag atlas_flag) "check_free_space" =
      some { task_id := "check_free_space", op := .FreeSpaceSensor
           , path := some cfg.dicom_local_folder
           , free_disk_threshold := some cfg.min_free_space_local_folder
           , retry_delay_seconds := some 3600
           , retries := some (24 * 7)
           , pool := some "remote_file_copy" } := by
  cases copy_flag <;> cases organizer_flag <;> cases mpm_flag <;> cases atlas_flag <;>
    exact ⟨rfl, rfl⟩

/-- The builder arguments instantiated at the concrete example
configuration. -/
def argsEx : BuilderArgs := argsOfConfig cfgEx

/-- The `set_upstream` links of the built DAG depend only on the four
feature flags, never on the string arguments; this function names that
link list. -/
def builderEdges
    (copy_dicom_to_local dicom_organizer mpm_maps neuro_morphometric_atlas : Bool) :
    List (String × String) :=
  (mkDag argsEx copy_dicom_to_local dicom_organizer mpm_maps neuro_morphometric_atlas).edges

theorem mkDag_edges (a : BuilderArgs)
    (copy_flag organizer_flag mpm_flag atlas_flag : Bool) :
    (mkDag a copy_flag organizer_flag mpm_flag atlas_flag).edges =
      builderEdges copy_flag organizer_flag mpm_flag atlas_flag := by
  cases copy_flag <;> cases organizer_flag <;> cases mpm_flag <;> cases atlas_flag <;> rfl

/-- C2: with copying enabled (and the DICOM organizer at its default,
disabled), the built DAG contains the declared chain of links
check_free_space → copy_dicom_to_local → prepare_pipeline →
extract_dicom_info → dicom_to_nifti_pipeline → extract_nifti_info →
notify_success, for any setting of the map/atlas flags; and the optional
MPM and atlas pipelines branch off downstream of the conversion step:
the MPM pipeline directly below it, and the atlas pipeline below the MPM
pipeline when that one is enabled, directly below the conversion step
otherwise. -/
theorem claim2_linear_chain (a : BuilderArgs) (mpm_flag atlas_flag : Bool) :
    [("check_free_space", "copy_dicom_to_local"),
     ("copy_dicom_to_local", "prepare_pipeline"),
     ("prepare_pipeline", "extract_dicom_info"),
     ("extract_dicom_info", "dicom_to_nifti_pipeline"),
     ("dicom_to_nifti_pipeline", "extract_nifti_info"),
     ("extract_nifti_info", "notify_success")]
      ⊆ (mkDag a true false mpm_flag atlas_flag).edges ∧
    ("dicom_to_nifti_pipeline", "mpm_maps_pipeline")
      ∈ (mkDag a true false true atlas_flag).edges ∧
    ("mpm_maps_pipeline", "neuro_morphometric_atlas_pipeline")
      ∈ (mkDag a true false true true).edges ∧
    ("dicom_to_nifti_pipeline", "neuro_morphometric_atlas_pipeline")
      ∈ (mkDag a true false false true).edges := by
  cases mpm_flag <;> cases atlas_flag <;>
    refine ⟨?_, ?_, ?_, ?_⟩ <;> simp only [mkDag_edges] <;> decide

/-- C8: whatever the four feature flags, `notify_success` is linked
directly downstream of `extract_nifti_info`; whenever the MPM pipeline
is enabled it is also linked directly downstream of
`extract_nifti_mpm_info`; and whenever the atlas pipeline is enabled it
is also linked directly downstream of `extract_nifti_atlas_info`. -/
theorem claim8_notify_success_last (a : BuilderArgs)
    (copy_flag organizer_flag mpm_flag atlas_flag : Bool) :
    ("extract_nifti_info", "notify_success")
      ∈ (mkDag a copy_flag organizer_flag mpm_flag atlas_flag).edges ∧
    ("extract_nifti_mpm_info", "notify_success")
      ∈ (mkDag a copy_flag organizer_flag true atlas_flag).edges ∧
    ("extract_nifti_atlas_info", "notify_success")
      ∈ (mkDag a copy_flag organizer_flag mpm_flag true).edges := by
  cases copy_flag <;> cases organizer_flag <;> cases mpm_flag <;> cases atlas_flag <;>
    refine ⟨?_, ?_, ?_⟩ <;> simp only [mkDag_edges] <;> decide

/-- C3 (counterexample): in the hard-coded DAG, the SpmPipelineOperator
`dicom_to_nifti_pipeline` is declared with no on-skip and no on-failure
trigger dag id at all, so the SpmPipelineOperators of the hard-coded DAG do
not carry the trigger declarations the claim asserts for them. -/
theorem claim3_counterexample :
    (findTask (MriPreProcessDicom.dag cfgEx) "dicom_to_nifti_pipeline").map
        (fun t => (t.op, t.on_skip_trigger_dag_id, t.on_failure_trigger_dag_id))
      = some (OpType.SpmPipelineOperator, none, none) := by decide

/-- C3 (amended): every SpmPipelineOperator created by
`pre_process_dicom_dag`, for any flags and arguments, is declared with
on_skip_trigger_dag_id `mri_notify_skipped_processing` and
on_failure_trigger_dag_id `mri_notify_failed_processing`; the
SpmPipelineOperators of the hard-coded DAG declare neither trigger (no
task of that DAG carries any on-skip or on-failure trigger dag id). -/
theorem claim3_amended (cfg : Config) (a : BuilderArgs)
    (copy_flag organizer_flag mpm_flag atlas_flag : Bool) :
    ((mkDag a copy_flag organizer_flag mpm_flag atlas_flag).tasks.all fun t =>
        t.op != OpType.SpmPipelineOperator ||
          (t.on_skip_trigger_dag_id == some "mri_notify_skipped_processing" &&
           t.on_failure_trigger_dag_id == some "mri_notify_failed_processing")) = true ∧
    ((MriPreProcessDicom.dag cfg).tasks.all fun t =>
        t.on_skip_trigger_dag_id == none && t.on_failure_trigger_dag_id == none) = true := by
  cases copy_flag <;> cases organizer_flag <;> cases mpm_flag <;> cases atlas_flag <;>
    exact ⟨rfl, rfl⟩

/-- C5 (counterexample): on the concrete folder `/d/s1` and session
`s1`, `extract_dicom_info_fn` makes its database-import call to the
function named `dicom2db`, not `dicom_to_db`, and `extract_nifti_info_fn`
calls the function named `nifti2db`, not `nifti_to_db`: no call named
`dicom_to_db` or `nifti_to_db` is ever made. -/
theorem claim5_counterexample :
    (MriPreProcessDicom.extract_dicom_info_fn (fun _ => ("p01", "2016-01-01"))
        "/d/s1" "s1").1.map ExtCall.fn = ["visit_info", "dicom2db"] ∧
    "dicom_to_db" ∉ (MriPreProcessDicom.extract_dicom_info_fn
        (fun _ => ("p01", "2016-01-01")) "/d/s1" "s1").1.map ExtCall.fn ∧
    (MriPreProcessDicom.extract_nifti_info_fn "/n/s1" "s1" "p01"
        "2016-01-01").1.map ExtCall.fn = ["nifti2db"] ∧
    "nifti_to_db" ∉ (MriPreProcessDicom.extract_nifti_info_fn "/n/s1" "s1" "p01"
        "2016-01-01").1.map ExtCall.fn := by decide

/-- C5 (amended): for every folder and session id,
`extract_dicom_info_fn` calls `visit_info(folder)` and then the
DICOM-to-database import function named `dicom2db` on the same folder,
and returns a dictionary with exactly the keys `participant_id` and
`scan_date` holding the pair returned by `visit_info`; and for every
input, `extract_nifti_info_fn` calls the NIfTI-to-database function
named `nifti2db` with (folder, participant_id, scan_date) and returns
the string "ok". -/
theorem claim5_amended (visit_info : String → String × String)
    (folder session_id participant_id scan_date : String) :
    MriPreProcessDicom.extract_dicom_info_fn visit_info folder session_id =
      ([{ fn := "visit_info", args := [folder] },
        { fn := "dicom2db", args := [folder] }],
       [("participant_id", (visit_info folder).1),
        ("scan_date", (visit_info folder).2)]) ∧
    MriPreProcessDicom.extract_nifti_info_fn folder session_id participant_id scan_date =
      ([{ fn := "nifti2db", args := [folder, participant_id, scan_date] }], "ok") :=
  ⟨rfl, rfl⟩

/-- C6: for every folder and session id (and any behavior of the
external `os.path.abspath`), the hard-coded
module function `mpm_maps_arguments_fn` returns exactly the 6-element positional list
[abspath(folder + "/.."), session_id, MPM local folder, protocols file,
"Preproc_mpm_maps_pipeline_config.txt", MPM server folder], and its
`neuro_morphometric_atlas_arguments_fn` returns exactly the 6-element
list [session_id, abspath(folder + "/.."), atlas local folder, atlas
server folder, protocols file, "csv"]. -/
theorem claim6_spm_argument_lists (cfg : Config) (abspath : String → String)
    (folder session_id participant_id scan_date : String) :
    MriPreProcessDicom.mpm_maps_arguments_fn cfg abspath
        folder session_id participant_id scan_date =
      [abspath (folder ++ "/.."), session_id, cfg.mpm_maps_local_folder,
       cfg.protocols_file, "Preproc_mpm_maps_pipeline_config.txt",
       cfg.mpm_maps_server_folder] ∧
    (MriPreProcessDicom.mpm_maps_arguments_fn cfg abspath
        folder session_id participant_id scan_date).length = 6 ∧
    MriPreProcessDicom.neuro_morphometric_atlas_arguments_fn cfg abspath
        folder session_id participant_id scan_date =
      [session_id, abspath (folder ++ "/.."),
       cfg.neuro_morphometric_atlas_local_folder,
       cfg.neuro_morphometric_atlas_server_folder,
       cfg.protocols_file, "csv"] ∧
    (MriPreProcessDicom.neuro_morphometric_atlas_arguments_fn cfg abspath
        folder session_id participant_id scan_date).length = 6 :=
  ⟨rfl, rfl, rfl, rfl⟩

/-- The operator classes supplied by the orchestration framework and its
plugins, the only classes instantiated by the scripts of the repository. -/
def frameworkOperatorTypes : List OpType :=
  [.FreeSpaceSensor, .BashOperator, .PreparePipelineOperator,
   .PythonPipelineOperator, .SpmPipelineOperator, .TriggerDagRunOperator,
   .BashPipelineOperator]

/-- C7: every task declared by the repository — by the parameterized
builder under any flags, by the hard-coded DAG, and by the reusable
copy-to-local step — is an instantiation of one of the framework
operator classes carrying only static parameters, and each named
operation delegates to the expected class: the free-space check to the
sensor operator, the rsync copy and the cleanup to the shell-command
operator, the metadata extractions to the Python pipeline operator, and
the external-tool invocations to the SPM pipeline operator. -/
theorem claim7_operator_delegation (cfg : Config) (a : BuilderArgs)
    (copy_flag organizer_flag mpm_flag atlas_flag : Bool)
    (up : Step) (min_free_space output_folder : String) (dataset_config : List String) :
    ((mkDag a copy_flag organizer_flag mpm_flag atlas_flag).tasks.all fun t =>
        frameworkOperatorTypes.contains t.op) = true ∧
    ((MriPreProcessDicom.dag cfg).tasks.all fun t =>
        frameworkOperatorTypes.contains t.op) = true ∧
    (copy_to_local_step up min_free_space output_folder dataset_config).1.op =
      OpType.BashPipelineOperator ∧
    (findTask (MriPreProcessDicom.dag cfg) "check_free_space").map Task.op =
      some OpType.FreeSpaceSensor ∧
    (findTask (MriPreProcessDicom.dag cfg) "copy_dicom_to_local").map Task.op =
      some OpType.BashOperator ∧
    (findTask (MriPreProcessDicom.dag cfg) "cleanup_local_dicom").map Task.op =
      some OpType.BashOperator ∧
    (findTask (MriPreProcessDicom.dag cfg) "extract_dicom_info").map Task.op =
      some OpType.PythonPipelineOperator ∧
    (findTask (MriPreProcessDicom.dag cfg) "dicom_to_nifti_pipeline").map Task.op =
      some OpType.SpmPipelineOperator := by
  cases copy_flag <;> cases organizer_flag <;> cases mpm_flag <;> cases atlas_flag <;>
    exact ⟨rfl, rfl, rfl, rfl, rfl, rfl, rfl, rfl⟩

/-- C9: `protocols_file` is bound by no scope visible to the four SPM
argument-builder functions of `mri_pipelines/pre_process_dicom.py`
(neither a parameter, nor a local, nor a module-level definition or
import), so every invocation of any of them, whatever its inputs,
raises `NameError` for `protocols_file`. -/
theorem claim9_protocols_file_undefined :
    "protocols_file" ∉ MriPipelines.pipelinesModuleScopeNames ∧
    ∀ (abspath : String → String) (local_folder server_folder : String)
      (folder session_id participant_id scan_date : String),
      MriPipelines.dicom_organizer_arguments_fn abspath local_folder server_folder
          folder session_id =
        Except.error (MriPipelines.PyError.nameError "protocols_file") ∧
      MriPipelines.dicom_to_nifti_arguments_fn abspath local_folder server_folder
          folder session_id participant_id scan_date =
        Except.error (MriPipelines.PyError.nameError "protocols_file") ∧
      MriPipelines.neuro_morphometric_atlas_arguments_fn abspath local_folder
          server_folder folder session_id participant_id scan_date =
        Except.error (MriPipelines.PyError.nameError "protocols_file") ∧
      MriPipelines.mpm_maps_arguments_fn abspath local_folder server_folder
          folder session_id participant_id scan_date =
        Except.error (MriPipelines.PyError.nameError "protocols_file") := by
  refine ⟨by decide, ?_⟩
  intro abspath local_folder server_folder folder session_id participant_id scan_date
  exact ⟨rfl, rfl, rfl, rfl⟩

/-- C10: for every upstream step handle, `copy_to_local_step` returns a
step whose priority weight is the priority weight of the upstream step plus
10, while the BashPipelineOperator it creates receives that
same priority weight unincremented; and the operator is linked below
the task of the upstream step exactly when that handle carries a task —
when it carries none, no upstream link is set. -/
theorem claim10_copy_to_local_step (up : Step)
    (min_free_space output_folder : String) (dataset_config : List String) :
    (copy_to_local_step up min_free_space output_folder dataset_config).2.2.priority_weight
      = up.priority_weight + 10 ∧
    (copy_to_local_step up min_free_space output_folder dataset_config).1.priority_weight
      = some up.priority_weight ∧
    (copy_to_local_step up min_free_space output_folder dataset_config).2.1
      = (match up.task with
         | some t => [(t, "copy_to_local")]
         | none => []) :=
  ⟨rfl, rfl, rfl⟩

/-- The parameterized builder instantiated with its default optional
arguments (copying enabled, organizer disabled, MPM maps and atlas
enabled) over the same configuration the hard-coded module reads. -/
def defaultBuilderDag (cfg : Config) : DagModel :=
  buildWith cfg true false true true

/-- C1 (counterexample): at a concrete configuration, the DAG built by
`pre_process_dicom_dag` with its default optional arguments differs from
the hard-coded DAG in task ids (`notify_success` exists only in the
built DAG), in links (`dicom_to_nifti_pipeline` is below
`extract_dicom_info` in the built DAG but below `prepare_pipeline` in
the hard-coded one), and in static parameters (pool of the conversion
pipeline, execution timeout of the MPM pipeline, and the on-skip
trigger declaration of the conversion pipeline). -/
theorem claim1_counterexample :
    "notify_success" ∈ (defaultBuilderDag cfgEx).taskIds ∧
    "notify_success" ∉ (MriPreProcessDicom.dag cfgEx).taskIds ∧
    ("extract_dicom_info", "dicom_to_nifti_pipeline") ∈ (defaultBuilderDag cfgEx).edges ∧
    ("extract_dicom_info", "dicom_to_nifti_pipeline") ∉ (MriPreProcessDicom.dag cfgEx).edges ∧
    ("prepare_pipeline", "dicom_to_nifti_pipeline") ∈ (MriPreProcessDicom.dag cfgEx).edges ∧
    ("prepare_pipeline", "dicom_to_nifti_pipeline") ∉ (defaultBuilderDag cfgEx).edges ∧
    (findTask (defaultBuilderDag cfgEx) "dicom_to_nifti_pipeline").map Task.pool ≠
      (findTask (MriPreProcessDicom.dag cfgEx) "dicom_to_nifti_pipeline").map Task.pool ∧
    (findTask (defaultBuilderDag cfgEx) "mpm_maps_pipeline").map
        Task.execution_timeout_seconds ≠
      (findTask (MriPreProcessDicom.dag cfgEx) "mpm_maps_pipeline").map
        Task.execution_timeout_seconds ∧
    (findTask (defaultBuilderDag cfgEx) "dicom_to_nifti_pipeline").map
        Task.on_skip_trigger_dag_id ≠
      (findTask (MriPreProcessDicom.dag cfgEx) "dicom_to_nifti_pipeline").map
        Task.on_skip_trigger_dag_id := by decide

/-- C1 (amended): for every configuration, the DAG built by
`pre_process_dicom_dag` with its default optional arguments has exactly
the task ids of the hard-coded DAG plus an extra `notify_success` task;
the tasks `check_free_space`, `copy_dicom_to_local`, `prepare_pipeline`
and `cleanup_local_dicom` carry identical static parameters in both;
all shared tasks carry the same priority weights, and the same
execution timeouts except `mpm_maps_pipeline` (3 hours hard-coded, 24
hours in the builder); the builder places `dicom_to_nifti_pipeline`
below `extract_dicom_info` (parent task included) where the hard-coded
DAG places it below `prepare_pipeline`, and otherwise the links agree
up to the extra `notify_success` links; the builder pools the
conversion and extraction tasks into `io_intensive` where the
hard-coded DAG uses `image_preprocessing` for the conversion and no
pool for the extractions (both pool the MPM and atlas pipelines into
`image_preprocessing`); and the builder declares on-skip/on-failure
trigger dag ids on its SpmPipelineOperators where the hard-coded DAG
declares none. -/
theorem claim1_amended (cfg : Config) :
    (defaultBuilderDag cfg).taskIds =
      ["check_free_space", "copy_dicom_to_local", "prepare_pipeline",
       "extract_dicom_info", "dicom_to_nifti_pipeline", "cleanup_local_dicom",
       "extract_nifti_info", "notify_success", "mpm_maps_pipeline",
       "extract_nifti_mpm_info", "neuro_morphometric_atlas_pipeline",
       "extract_nifti_atlas_info"] ∧
    (MriPreProcessDicom.dag cfg).taskIds =
      ((defaultBuilderDag cfg).taskIds).erase "notify_success" ∧
    findTask (defaultBuilderDag cfg) "check_free_space" =
      findTask (MriPreProcessDicom.dag cfg) "check_free_space" ∧
    findTask (defaultBuilderDag cfg) "copy_dicom_to_local" =
      findTask (MriPreProcessDicom.dag cfg) "copy_dicom_to_local" ∧
    findTask (defaultBuilderDag cfg) "prepare_pipeline" =
      findTask (MriPreProcessDicom.dag cfg) "prepare_pipeline" ∧
    findTask (defaultBuilderDag cfg) "cleanup_local_dicom" =
      findTask (MriPreProcessDicom.dag cfg) "cleanup_local_dicom" ∧
    ((defaultBuilderDag cfg).tasks.filter (fun t => t.task_id != "notify_success")).map
        (fun t => (t.task_id, t.priority_weight)) =
      (MriPreProcessDicom.dag cfg).tasks.map (fun t => (t.task_id, t.priority_weight)) ∧
    ((defaultBuilderDag cfg).tasks.filter (fun t =>
        t.task_id != "notify_success" && t.task_id != "mpm_maps_pipeline")).map
        (fun t => (t.task_id, t.execution_timeout_seconds)) =
      ((MriPreProcessDicom.dag cfg).tasks.filter (fun t =>
        t.task_id != "mpm_maps_pipeline")).map
        (fun t => (t.task_id, t.execution_timeout_seconds)) ∧
    (findTask (MriPreProcessDicom.dag cfg) "mpm_maps_pipeline").map
        Task.execution_timeout_seconds = some (some 10800) ∧
    (findTask (defaultBuilderDag cfg) "mpm_maps_pipeline").map
        Task.execution_timeout_seconds = some (some 86400) ∧
    (findTask (MriPreProcessDicom.dag cfg) "dicom_to_nifti_pipeline").map
        Task.parent_task = some (some "prepare_pipeline") ∧
    (findTask (defaultBuilderDag cfg) "dicom_to_nifti_pipeline").map
        Task.parent_task = some (some "extract_dicom_info") ∧
    (MriPreProcessDicom.dag cfg).edges =
      [("check_free_space", "copy_dicom_to_local"),
       ("copy_dicom_to_local", "prepare_pipeline"),
       ("prepare_pipeline", "extract_dicom_info"),
       ("prepare_pipeline", "dicom_to_nifti_pipeline"),
       ("dicom_to_nifti_pipeline", "cleanup_local_dicom"),
       ("dicom_to_nifti_pipeline", "extract_nifti_info"),
       ("dicom_to_nifti_pipeline", "mpm_maps_pipeline"),
       ("mpm_maps_pipeline", "extract_nifti_mpm_info"),
       ("mpm_maps_pipeline", "neuro_morphometric_atlas_pipeline"),
       ("neuro_morphometric_atlas_pipeline", "extract_nifti_atlas_info")] ∧
    (defaultBuilderDag cfg).edges =
      [("check_free_space", "copy_dicom_to_local"),
       ("copy_dicom_to_local", "prepare_pipeline"),
       ("prepare_pipeline", "extract_dicom_info"),
       ("extract_dicom_info", "dicom_to_nifti_pipeline"),
       ("dicom_to_nifti_pipeline", "cleanup_local_dicom"),
       ("dicom_to_nifti_pipeline", "extract_nifti_info"),
       ("extract_nifti_info", "notify_success"),
       ("dicom_to_nifti_pipeline", "mpm_maps_pipeline"),
       ("mpm_maps_pipeline", "extract_nifti_mpm_info"),
       ("extract_nifti_mpm_info", "notify_success"),
       ("mpm_maps_pipeline", "neuro_morphometric_atlas_pipeline"),
       ("neuro_morphometric_atlas_pipeline", "extract_nifti_atlas_info"),
       ("extract_nifti_atlas_info", "notify_success")] ∧
    ((defaultBuilderDag cfg).tasks.map (fun t => (t.task_id, t.pool)) =
      [("check_free_space", some "remote_file_copy"),
       ("copy_dicom_to_local", some "remote_file_copy"),
       ("prepare_pipeline", none),
       ("extract_dicom_info", some "io_intensive"),
       ("dicom_to_nifti_pipeline", some "io_intensive"),
       ("cleanup_local_dicom", none),
       ("extract_nifti_info", some "io_intensive"),
       ("notify_success", none),
       ("mpm_maps_pipeline", some "image_preprocessing"),
       ("extract_nifti_mpm_info", some "io_intensive"),
       ("neuro_morphometric_atlas_pipeline", some "image_preprocessing"),
       ("extract_nifti_atlas_info", some "io_intensive")]) ∧
    ((MriPreProcessDicom.dag cfg).tasks.map (fun t => (t.task_id, t.pool)) =
      [("check_free_space", some "remote_file_copy"),
       ("copy_dicom_to_local", some "remote_file_copy"),
       ("prepare_pipeline", none),
       ("extract_dicom_info", none),
       ("dicom_to_nifti_pipeline", some "image_preprocessing"),
       ("cleanup_local_dicom", none),
       ("extract_nifti_info", none),
       ("mpm_maps_pipeline", some "image_preprocessing"),
       ("extract_nifti_mpm_info", none),
       ("neuro_morphometric_atlas_pipeline", some "image_preprocessing"),
       ("extract_nifti_atlas_info", none)]) ∧
    ((defaultBuilderDag cfg).tasks.all fun t =>
        t.op != OpType.SpmPipelineOperator ||
          (t.on_skip_trigger_dag_id == some "mri_notify_skipped_processing" &&
           t.on_failure_trigger_dag_id == some "mri_notify_failed_processing")) = true ∧
    ((MriPreProcessDicom.dag cfg).tasks.all fun t =>
        t.on_skip_trigger_dag_id == none &&
        t.on_failure_trigger_dag_id == none) = true :=
  ⟨rfl, rfl, rfl, rfl, rfl, rfl, rfl, rfl, rfl, rfl, rfl, rfl, rfl, rfl, rfl, rfl, rfl, rfl⟩

end DataFactory
